import Mathlib

/-!
Shallow embedding of the crash-dump diagnostic engine
(`src/utils/analysisEngine.ts`, class `AnalysisEngine`) and the data model
(`src/types/dumpAnalysis.ts`) of the dump-scribe repository, together with
theorems settling the behavioural claims about it.

Modelling conventions:
* TypeScript interfaces become structures; optional fields (`x?: T`) become
  `Option` fields defaulting to `none`.
* String-literal union types that the engine only ever compares or
  concatenates (`WaitObject.type`, `TechnicalEvidence.type`,
  `ModuleInfo.imageType`, heap-block status, `DumpFile.type`/`architecture`)
  stay `String`; the two unions the claims inspect (`severity`, thread
  `state`) become inductives.
* JavaScript numbers in the confidence computation are modelled exactly by
  `JSNum` (NaN, the two infinities, or a rational).  Every value the engine
  actually produces there is a small rational, which double precision
  represents up to rounding that affects none of the stated properties
  (integrality fails and the clamp bounds hold in either reading).
* The two `Math.random()` calls in `analyzeHeap` are modelled by explicit
  parameters `rand1 rand2 : ℚ` (each call yields a value in `[0,1)`), threaded
  through `performCrashAnalysis`/`analyzeData`.
* `Date` (`DumpFile.uploadedAt`) is modelled as a `Nat` epoch timestamp; the
  engine never reads it.
* String helpers (`jsToLower`, `jsIncludes`, …) reimplement the JavaScript
  built-ins used by the source (`toLowerCase`, `String.prototype.includes`,
  `Array.prototype.join`, `parseInt(_, 16)`, `Number.prototype.toString(16)`)
  structurally so that concrete runs evaluate inside the kernel.  All strings
  the engine lowercases are ASCII, where `toLowerCase` agrees with the
  ASCII-only lowering below.
-/

/-- ASCII lowering of one character, as `String.prototype.toLowerCase` acts on
the ASCII inputs the engine handles. -/
def charLower (c : Char) : Char :=
  if 'A' ≤ c ∧ c ≤ 'Z' then Char.ofNat (c.toNat + 32) else c

/-- Models `s.toLowerCase()` on ASCII strings. -/
def jsToLower (s : String) : String := String.mk (s.data.map charLower)

/-- `sub` occurs as a contiguous sublist of the second argument. -/
def isSubListOf (sub : List Char) : List Char → Bool
  | [] => sub.isEmpty
  | c :: rest => sub.isPrefixOf (c :: rest) || isSubListOf sub rest

/-- Models `s.includes(sub)` of JavaScript. -/
def jsIncludes (s sub : String) : Bool := isSubListOf sub.data s.data

/-- Rendering of a possibly-undefined string inside a template literal:
JavaScript prints `undefined` for a missing value. -/
def jsOptString (o : Option String) : String := o.getD "undefined"

/-- Models the JavaScript `a || b` fallback on an optional string: an absent
or empty (falsy) string selects the fallback. -/
def jsStringOr (a : Option String) (b : String) : String :=
  match a with
  | some s => if s == "" then b else s
  | none => b

/-- A JavaScript double as the engine's confidence computation can observe
it: NaN, an infinity, or an exact (rational) value. -/
inductive JSNum where
  | nan : JSNum
  | posInf : JSNum
  | negInf : JSNum
  | num : ℚ → JSNum
deriving DecidableEq

/-- JavaScript `+` on numbers. -/
def jsAdd : JSNum → JSNum → JSNum
  | .nan, _ => .nan
  | _, .nan => .nan
  | .posInf, .negInf => .nan
  | .negInf, .posInf => .nan
  | .posInf, _ => .posInf
  | _, .posInf => .posInf
  | .negInf, _ => .negInf
  | _, .negInf => .negInf
  | .num a, .num b => .num (a + b)

/-- JavaScript `*` on numbers. -/
def jsMul : JSNum → JSNum → JSNum
  | .nan, _ => .nan
  | _, .nan => .nan
  | .num a, .num b => .num (a * b)
  | .posInf, .posInf => .posInf
  | .posInf, .negInf => .negInf
  | .negInf, .posInf => .negInf
  | .negInf, .negInf => .posInf
  | .posInf, .num b => if b = 0 then .nan else if 0 < b then .posInf else .negInf
  | .num a, .posInf => if a = 0 then .nan else if 0 < a then .posInf else .negInf
  | .negInf, .num b => if b = 0 then .nan else if 0 < b then .negInf else .posInf
  | .num a, .negInf => if a = 0 then .nan else if 0 < a then .negInf else .posInf

/-- JavaScript `/` on numbers: `0/0` is NaN, `x/0` for `x ≠ 0` is a signed
infinity (the sign of a zero denominator is taken positive: the engine only
ever divides by a list length). -/
def jsDiv : JSNum → JSNum → JSNum
  | .nan, _ => .nan
  | _, .nan => .nan
  | .posInf, .posInf => .nan
  | .posInf, .negInf => .nan
  | .negInf, .posInf => .nan
  | .negInf, .negInf => .nan
  | .posInf, .num b => if 0 ≤ b then .posInf else .negInf
  | .negInf, .num b => if 0 ≤ b then .negInf else .posInf
  | .num _, .posInf => .num 0
  | .num _, .negInf => .num 0
  | .num a, .num b =>
      if b = 0 then (if a = 0 then .nan else if 0 < a then .posInf else .negInf)
      else .num (a / b)

/-- JavaScript `Math.min`: NaN-propagating. -/
def jsMin : JSNum → JSNum → JSNum
  | .nan, _ => .nan
  | _, .nan => .nan
  | .negInf, _ => .negInf
  | _, .negInf => .negInf
  | .posInf, y => y
  | x, .posInf => x
  | .num a, .num b => .num (min a b)

/-- JavaScript `Math.max`: NaN-propagating. -/
def jsMax : JSNum → JSNum → JSNum
  | .nan, _ => .nan
  | _, .nan => .nan
  | .posInf, _ => .posInf
  | _, .posInf => .posInf
  | .negInf, y => y
  | x, .negInf => x
  | .num a, .num b => .num (max a b)

/-- One hexadecimal digit, or `none`. -/
def hexDigitVal (c : Char) : Option Nat :=
  if '0' ≤ c ∧ c ≤ '9' then some (c.toNat - '0'.toNat)
  else if 'a' ≤ c ∧ c ≤ 'f' then some (c.toNat - 'a'.toNat + 10)
  else if 'A' ≤ c ∧ c ≤ 'F' then some (c.toNat - 'A'.toNat + 10)
  else none

/-- Accumulates the value of the longest leading run of hex digits;
`none` when no digit was consumed (the parse is NaN). -/
def hexPrefixVal : List Char → Option Nat → Option Nat
  | [], acc => acc
  | c :: rest, acc =>
      match hexDigitVal c with
      | some d => hexPrefixVal rest (some (acc.getD 0 * 16 + d))
      | none => acc

/-- Models `parseInt(s, 16)`: skip whitespace, optional sign, optional
`0x`/`0X` prefix, then the longest run of hex digits; `none` models NaN. -/
def jsParseIntHex (s : String) : Option Int :=
  let cs := s.data.dropWhile Char.isWhitespace
  let signed : Bool × List Char :=
    match cs with
    | '-' :: rest => (true, rest)
    | '+' :: rest => (false, rest)
    | _ => (false, cs)
  let digits : List Char :=
    match signed.2 with
    | '0' :: 'x' :: rest => rest
    | '0' :: 'X' :: rest => rest
    | _ => signed.2
  (hexPrefixVal digits none).map (fun n => if signed.1 then -(n : Int) else (n : Int))

/-- Models `n.toString(16)` (lowercase hex digits). -/
def jsHexString (n : Int) : String :=
  if n < 0 then "-" ++ String.mk (Nat.toDigits 16 (-n).toNat)
  else String.mk (Nat.toDigits 16 n.toNat)

/-- Severity union `'critical' | 'high' | 'medium' | 'low'`. -/
inductive Severity where
  | critical
  | high
  | medium
  | low
deriving DecidableEq

/-- Thread state union
`'running' | 'waiting' | 'blocked' | 'terminated' | 'suspended'`. -/
inductive ThreadState where
  | running
  | waiting
  | blocked
  | terminated
  | suspended
deriving DecidableEq

/-- `interface DumpFile`. -/
structure DumpFile where
  name : String
  size : Nat
  uploadedAt : Nat
  type : String
  architecture : String
deriving DecidableEq

/-- `interface MemoryRegion`. -/
structure MemoryRegion where
  startAddress : String
  endAddress : String
  size : String
  protection : String
  type : String
  contents : Option String := none
deriving DecidableEq

/-- `interface RegisterState` (all fields optional). -/
structure RegisterState where
  eax : Option String := none
  ebx : Option String := none
  ecx : Option String := none
  edx : Option String := none
  esp : Option String := none
  ebp : Option String := none
  eip : Option String := none
  rax : Option String := none
  rbx : Option String := none
  rcx : Option String := none
  rdx : Option String := none
  rsp : Option String := none
  rbp : Option String := none
  rip : Option String := none
  flags : Option String := none
deriving DecidableEq

/-- `interface ExceptionInfo`. -/
structure ExceptionInfo where
  code : String
  address : String
  description : String
  module : String
  function : Option String := none
  offset : Option String := none
  severity : Severity
  registers : Option RegisterState := none
  faultingInstruction : Option String := none
  disassemblyContext : Option (List String) := none
  memoryRegions : Option (List MemoryRegion) := none
  instructionDecode : Option String := none
  memoryProtection : Option String := none
deriving DecidableEq

/-- `interface WaitObject`. -/
structure WaitObject where
  type : String
  handle : String
  name : Option String := none
  ownerThread : Option Nat := none
  waitTime : Nat
  address : String
deriving DecidableEq

/-- `interface StackFrame` (`locals: Record<string, string>` as an
association list). -/
structure StackFrame where
  address : String
  module : String
  function : String
  offset : String
  sourceFile : Option String := none
  lineNumber : Option Nat := none
  hasSymbols : Bool
  framePointer : Option String := none
  instructionPointer : Option String := none
  parameters : Option (List String) := none
  locals : Option (List (String × String)) := none
  disassembly : Option String := none
deriving DecidableEq

/-- `interface ThreadInfo`. -/
structure ThreadInfo where
  id : Nat
  name : Option String := none
  state : ThreadState
  priority : Int
  stackTrace : List StackFrame
  cpu : Nat
  kernelTime : Nat
  userTime : Nat
  waitReason : Option String := none
  isMainThread : Bool
  registers : Option RegisterState := none
  waitObjects : Option (List WaitObject) := none
  stackBase : Option String := none
  stackLimit : Option String := none
  lastError : Option String := none
  teb : Option String := none
deriving DecidableEq

/-- `interface ModuleInfo`. -/
structure ModuleInfo where
  name : String
  baseAddress : String
  endAddress : String
  size : String
  version : String
  description : String
  company : String
  path : String
  imageType : String
  hasSymbols : Bool
  checksum : String
  timestamp : String
  isSystemModule : Bool
deriving DecidableEq

/-- `interface SystemInfo`. -/
structure SystemInfo where
  osVersion : String
  osServicePack : String
  processorArchitecture : String
  processorCount : Nat
  totalMemory : String
  availableMemory : String
  pageSize : String
deriving DecidableEq

/-- `interface ProcessInfo`. -/
structure ProcessInfo where
  name : String
  id : Nat
  commandLine : String
  startTime : String
  sessionId : Nat
  handleCount : Nat
  workingSetSize : String
  peakWorkingSetSize : String
  virtualSize : String
  peakVirtualSize : String
deriving DecidableEq

/-- `interface TechnicalEvidence` (the per-item confidences the engine emits
are integer literals, kept as `Nat`). -/
structure TechnicalEvidence where
  type : String
  description : String
  technicalDetails : String
  rawData : Option String := none
  confidence : Nat
  memoryAddress : Option String := none
deriving DecidableEq

/-- One entry of `DeadlockInfo.cycles`. -/
structure DeadlockCycle where
  threads : List Nat
  resources : List String
  evidence : List TechnicalEvidence
deriving DecidableEq

/-- `interface DeadlockInfo`. -/
structure DeadlockInfo where
  detected : Bool
  cycles : Option (List DeadlockCycle) := none
deriving DecidableEq

/-- One entry of `HeapAnalysis.heapBlocks`. -/
structure HeapBlock where
  address : String
  size : String
  status : String
deriving DecidableEq

/-- `interface HeapAnalysis`. -/
structure HeapAnalysis where
  corruptionDetected : Bool
  corruptionPatterns : Option (List String) := none
  evidence : Option (List TechnicalEvidence) := none
  allocationsCount : Option Int := none
  leakedBytes : Option Int := none
  heapBlocks : Option (List HeapBlock) := none
deriving DecidableEq

/-- The `stackRange` field of `StackAnalysis`. -/
structure StackRange where
  base : String
  limit : String
  current : String
deriving DecidableEq

/-- `interface StackAnalysis`. -/
structure StackAnalysis where
  overflowDetected : Bool
  stackDepth : Option Nat := none
  guardPageStatus : Option String := none
  evidence : Option (List TechnicalEvidence) := none
  stackRange : Option StackRange := none
deriving DecidableEq

/-- `interface CrashAnalysis`. -/
structure CrashAnalysis where
  crashType : String
  severity : Severity
  likelyRootCause : String
  confidence : JSNum
  recommendations : List String
  problemModules : List String
  deadlockDetected : Bool
  memoryCorruption : Bool
  stackOverflow : Bool
  evidence : List TechnicalEvidence
  deadlockInfo : Option DeadlockInfo := none
  heapAnalysis : Option HeapAnalysis := none
  stackAnalysis : Option StackAnalysis := none
  alternativeExplanations : Option (List String) := none
deriving DecidableEq

/-- The inline `statistics` record type of `AnalysisData`. -/
structure AnalysisStatistics where
  totalThreads : Nat
  runningThreads : Nat
  waitingThreads : Nat
  totalModules : Nat
  systemModules : Nat
  thirdPartyModules : Nat
  modulesWithSymbols : Nat
deriving DecidableEq

/-- `interface AnalysisData`. -/
structure AnalysisData where
  fileInfo : DumpFile
  systemInfo : SystemInfo
  processInfo : ProcessInfo
  exception : ExceptionInfo
  threads : List ThreadInfo
  modules : List ModuleInfo
  analysis : CrashAnalysis
  statistics : AnalysisStatistics
deriving DecidableEq

/-- One rule of the `CRASH_PATTERNS` table: a keyword set, a severity, and an
ordered list of candidate causes. -/
structure CrashPattern where
  keywords : List String
  severity : Severity
  commonCauses : List String
deriving DecidableEq

/-- The anonymous record returned by `detectCrashPattern`. -/
structure CrashPatternResult where
  type : String
  severity : Severity
  rootCause : String
  possibleCauses : List String
deriving DecidableEq

/-- The `accessViolation` entry of `CRASH_PATTERNS`. -/
def accessViolationPattern : CrashPattern :=
  { keywords := ["0xC0000005", "access violation", "read", "write", "virtual address"]
    severity := .critical
    commonCauses := ["Null pointer dereference", "Use after free", "Buffer overflow",
                     "Uninitialized pointer", "Memory corruption"] }

/-- The `stackOverflow` entry of `CRASH_PATTERNS`. -/
def stackOverflowPattern : CrashPattern :=
  { keywords := ["0xC00000FD", "stack overflow", "stack"]
    severity := .critical
    commonCauses := ["Infinite recursion", "Large local variables", "Deep call stack",
                     "Stack corruption"] }

/-- The `heapCorruption` entry of `CRASH_PATTERNS`. -/
def heapCorruptionPattern : CrashPattern :=
  { keywords := ["heap", "corruption", "0xC0000374"]
    severity := .critical
    commonCauses := ["Double free", "Buffer overrun", "Use after free",
                     "Heap metadata corruption"] }

/-- The `divideByZero` entry of `CRASH_PATTERNS`. -/
def divideByZeroPattern : CrashPattern :=
  { keywords := ["0xC0000094", "divide", "zero"]
    severity := .high
    commonCauses := ["Unvalidated input", "Logic error", "Missing bounds checking"] }

/-- `AnalysisEngine.CRASH_PATTERNS`, in object-literal insertion order (the
order `Object.entries` iterates). -/
def CRASH_PATTERNS : List (String × CrashPattern) :=
  [("accessViolation", accessViolationPattern),
   ("stackOverflow", stackOverflowPattern),
   ("heapCorruption", heapCorruptionPattern),
   ("divideByZero", divideByZeroPattern)]

/-- `AnalysisEngine.PROBLEMATIC_MODULES`. -/
def PROBLEMATIC_MODULES : List String :=
  ["unknown", "corrupted", "unsigned", "debug", "test"]

/-- `pattern.keywords.some(keyword => exceptionText.includes(keyword.toLowerCase()))`. -/
def ruleMatches (exceptionText : String) (pattern : CrashPattern) : Bool :=
  pattern.keywords.any (fun keyword => jsIncludes exceptionText (jsToLower keyword))

/-- Inserts a space before every uppercase letter:
`.replace(/([A-Z])/g, ' $1')`. -/
def insertSpacesBeforeUpper (s : List Char) : List Char :=
  (s.map (fun c => if c.isUpper then [' ', c] else [c])).flatten

/-- Uppercases the first character: `.replace(/^./, str => str.toUpperCase())`
(ASCII, as the pattern names are). -/
def upcaseFirstChar : List Char → List Char
  | [] => []
  | c :: rest =>
      (if 'a' ≤ c ∧ c ≤ 'z' then Char.ofNat (c.toNat - 32) else c) :: rest

/-- Removes leading and trailing whitespace, as `.trim()`. -/
def trimChars (l : List Char) : List Char :=
  ((l.dropWhile Char.isWhitespace).reverse.dropWhile Char.isWhitespace).reverse

/-- `AnalysisEngine.formatCrashType`. -/
def formatCrashType (patternName : String) : String :=
  String.mk (trimChars (upcaseFirstChar (insertSpacesBeforeUpper patternName.data)))

/-- `AnalysisEngine.detectCrashPattern`: first-match-wins over the ordered
rule table on the lower-cased `code description` concatenation; every rule's
cause list is nonempty, so `commonCauses[0]` is its head. -/
def detectCrashPattern (exception : ExceptionInfo) : CrashPatternResult :=
  let exceptionText := jsToLower (exception.code ++ " " ++ exception.description)
  match CRASH_PATTERNS.find? (fun p => ruleMatches exceptionText p.2) with
  | some p =>
      { type := formatCrashType p.1
        severity := p.2.severity
        rootCause := p.2.commonCauses.headD ""
        possibleCauses := p.2.commonCauses }
  | none =>
      { type := "Unknown Exception"
        severity := .medium
        rootCause := "Unable to determine root cause from available information"
        possibleCauses := ["Insufficient debugging information",
                           "Complex interaction between components"] }

/-- `AnalysisEngine.detectDeadlocks`: the JavaScript comparison
`waitingThreads.length >= threads.length / 2` divides real numbers, modelled
exactly in `ℚ`. -/
def detectDeadlocks (threads : List ThreadInfo) : Bool :=
  let waitingThreads := threads.filter (fun t => t.state == .waiting || t.state == .blocked)
  waitingThreads.length > 1 &&
    decide ((threads.length : ℚ) / 2 ≤ (waitingThreads.length : ℚ))

/-- `AnalysisEngine.detectMemoryCorruption`. -/
def detectMemoryCorruption (exception : ExceptionInfo) (modules : List ModuleInfo) : Bool :=
  let corruptionIndicators : List Bool :=
    [exception.code == "0xC0000005",
     exception.code == "0xC0000374",
     jsIncludes (jsToLower exception.description) "corruption",
     modules.any (fun m => jsIncludes (jsToLower m.name) "unknown" || !m.hasSymbols)]
  decide (2 ≤ (corruptionIndicators.filter (fun b => b)).length)

/-- `AnalysisEngine.detectStackOverflow`. -/
def detectStackOverflow (exception : ExceptionInfo) (threads : List ThreadInfo) : Bool :=
  if exception.code == "0xC00000FD" then true
  else
    match threads.find? (fun t => t.isMainThread) with
    | some mainThread => decide (50 < mainThread.stackTrace.length)
    | none => false

/-- `[...new Set(problematic)]`: deduplication keeping first occurrences in
insertion order.  `seen` accumulates the elements already emitted. -/
def jsSetDedupAux (seen : List String) : List String → List String
  | [] => []
  | x :: xs =>
      if seen.contains x then jsSetDedupAux seen xs
      else x :: jsSetDedupAux (x :: seen) xs

/-- `[...new Set(l)]`. -/
def jsSetDedup (l : List String) : List String := jsSetDedupAux [] l

/-- `AnalysisEngine.findProblematicModules`: the exception's module when
truthy (non-empty), then per module its name once if it lacks symbols and is
not a system module and once more if its lower-cased name contains a
configured suspicious substring — all deduplicated at the end. -/
def findProblematicModules (modules : List ModuleInfo) (exception : ExceptionInfo) :
    List String :=
  let base := if exception.module ≠ "" then [exception.module] else []
  let fromModules := (modules.map (fun m =>
    (if !m.hasSymbols && !m.isSystemModule then [m.name] else []) ++
    (if PROBLEMATIC_MODULES.any (fun p => jsIncludes (jsToLower m.name) p)
     then [m.name] else []))).flatten
  jsSetDedup (base ++ fromModules)

/-- `AnalysisEngine.generateRecommendations`. -/
def generateRecommendations (crashPattern : CrashPatternResult)
    (deadlockDetected memoryCorruption stackOverflow : Bool)
    (problemModules : List String) : List String :=
  (if jsIncludes crashPattern.type "Access Violation" then
     ["Review pointer usage and ensure proper null checks",
      "Use static analysis tools to detect potential buffer overflows",
      "Enable Application Verifier to catch heap corruption early"]
   else []) ++
  (if stackOverflow then
     ["Review recursive function calls for proper termination conditions",
      "Consider reducing local variable sizes or moving to heap allocation",
      "Increase stack size if recursion depth is expected"]
   else []) ++
  (if deadlockDetected then
     ["Review thread synchronization and lock ordering",
      "Consider using deadlock detection tools during development",
      "Implement timeout mechanisms for lock acquisitions"]
   else []) ++
  (if memoryCorruption then
     ["Enable heap debugging features in debug builds",
      "Use memory debugging tools like Application Verifier",
      "Review memory allocation and deallocation patterns"]
   else []) ++
  (if problemModules.length > 0 then
     ["Update or replace problematic modules: " ++ String.intercalate ", " problemModules,
      "Ensure all third-party libraries are compatible with your application"]
   else []) ++
  ["Reproduce the issue in a controlled environment",
   "Enable crash dumps and logging for better diagnostics",
   "Update to the latest version of runtime libraries"]

/-- `AnalysisEngine.calculateConfidence`: `data.exception.code &&` is the
JavaScript truthiness test (the empty string is falsy), and the symbols term
divides two list lengths as doubles — `0/0` is NaN when there are no
modules. -/
def calculateConfidence (data : AnalysisData) : JSNum :=
  let confidence : JSNum := .num 0
  let confidence :=
    if data.exception.code ≠ "" ∧ data.exception.code ≠ "Unknown"
    then jsAdd confidence (.num 30) else confidence
  let threadsWithStacks := data.threads.filter (fun t => t.stackTrace.length > 0)
  let confidence := jsAdd confidence
    (jsMin (.num 30) (.num (threadsWithStacks.length * 5)))
  let modulesWithSymbols := data.modules.filter (fun m => m.hasSymbols)
  let confidence := jsAdd confidence
    (jsMin (.num 25)
      (jsMul (jsDiv (.num modulesWithSymbols.length) (.num data.modules.length)) (.num 25)))
  let confidence :=
    if data.exception.module ≠ "" ∧
       (data.modules.find? (fun m => m.name == data.exception.module)).isSome
    then jsAdd confidence (.num 15) else confidence
  jsMin (.num 100) (jsMax (.num 0) confidence)

/-- `Object.values` of a `RegisterState`, in interface field order. -/
def registerValues (r : RegisterState) : List String :=
  [r.eax, r.ebx, r.ecx, r.edx, r.esp, r.ebp, r.eip, r.rax, r.rbx, r.rcx, r.rdx,
   r.rsp, r.rbp, r.rip, r.flags].filterMap (fun v => v)

/-- Models `JSON.stringify(registers, null, 2)`: a deterministic rendering of
the present register fields in field order. -/
def jsonStringifyRegisters (r : RegisterState) : String :=
  let entries := ([("eax", r.eax), ("ebx", r.ebx), ("ecx", r.ecx), ("edx", r.edx),
    ("esp", r.esp), ("ebp", r.ebp), ("eip", r.eip), ("rax", r.rax), ("rbx", r.rbx),
    ("rcx", r.rcx), ("rdx", r.rdx), ("rsp", r.rsp), ("rbp", r.rbp), ("rip", r.rip),
    ("flags", r.flags)] : List (String × Option String)).filterMap
      (fun p => p.2.map (fun v => (p.1, v)))
  "\x7b\n" ++
    String.intercalate ",\n"
      (entries.map (fun p => "  \"" ++ p.1 ++ "\": \"" ++ p.2 ++ "\"")) ++
  "\n\x7d"

/-- `AnalysisEngine.generateTechnicalEvidence` (the `crashPattern` argument is
unused in the source as well). -/
def generateTechnicalEvidence (data : AnalysisData) (crashPattern : CrashPatternResult) :
    List TechnicalEvidence :=
  let registerEvidence : List TechnicalEvidence :=
    match data.exception.registers with
    | some registers =>
        if (registerValues registers).any
            (fun reg => reg == "0x0000000000000000" || reg == "0x00000000") then
          [{ type := "register_state"
             description := "Null pointer detected in CPU registers"
             technicalDetails := "One or more CPU registers contain null values (0x00000000), indicating potential null pointer dereference. This commonly occurs when accessing uninitialized pointers or when object references become invalid."
             confidence := 85
             memoryAddress := some data.exception.address
             rawData := some (jsonStringifyRegisters registers) }]
        else []
    | none => []
  let memoryEvidence : List TechnicalEvidence :=
    if data.exception.code == "0xC0000005" then
      [{ type := "memory_pattern"
         description := "Access violation detected"
         technicalDetails := "Access violation at address " ++ data.exception.address ++
           ". The instruction \"" ++ jsOptString data.exception.faultingInstruction ++
           "\" attempted to access memory that was either not allocated, had incorrect permissions, or was corrupted. Memory protection: " ++
           jsOptString data.exception.memoryProtection
         confidence := 90
         memoryAddress := some data.exception.address
         rawData := data.exception.instructionDecode }]
    else []
  let waitingThreads := data.threads.filter (fun t => t.state == .waiting)
  let threadEvidence : List TechnicalEvidence :=
    if waitingThreads.length > 2 then
      [{ type := "thread_state"
         description := "Multiple threads in waiting state detected"
         technicalDetails := toString waitingThreads.length ++
           " threads are currently waiting, which may indicate synchronization issues or potential deadlock. Threads " ++
           String.intercalate ", " (waitingThreads.map (fun t => toString t.id)) ++
           " are affected. Wait objects include: " ++
           String.intercalate ", "
             ((waitingThreads.map (fun t => (t.waitObjects.getD []).map
               (fun w => w.type))).flatten)
         confidence := 70
         rawData := some (String.intercalate "\n" (waitingThreads.map (fun t =>
           "Thread " ++ toString t.id ++ ": " ++ jsOptString t.waitReason ++ " (" ++
           toString (t.waitObjects.getD []).length ++ " wait objects)"))) }]
    else []
  let instructionEvidence : List TechnicalEvidence :=
    match data.exception.faultingInstruction with
    | some faultingInstruction =>
        if faultingInstruction ≠ "" then
          [{ type := "instruction_analysis"
             description := "Faulting instruction analysis"
             technicalDetails := "The instruction \"" ++ faultingInstruction ++
               "\" caused the exception. Instruction decode: " ++
               jsOptString data.exception.instructionDecode ++
               ". This suggests the processor was unable to complete the memory operation due to invalid target address or insufficient permissions."
             confidence := 95
             memoryAddress := some data.exception.address
             rawData := some
               (let joined :=
                 match data.exception.disassemblyContext with
                 | some ctx => String.intercalate "\n" ctx
                 | none => ""
                if joined == "" then "No disassembly context available" else joined) }]
        else []
    | none => []
  registerEvidence ++ memoryEvidence ++ threadEvidence ++ instructionEvidence

/-- `thread1.waitObjects?.filter(obj1 => thread2.waitObjects?.some(obj2 =>
obj2.handle === obj1.handle))`. -/
def sharedWaitObjects (thread1 thread2 : ThreadInfo) : List WaitObject :=
  (thread1.waitObjects.getD []).filter (fun obj1 =>
    (thread2.waitObjects.getD []).any (fun obj2 => obj2.handle == obj1.handle))

/-- All index pairs `i < j` of a list, in the order of the source's nested
loops. -/
def allPairs {α : Type} : List α → List (α × α)
  | [] => []
  | x :: xs => xs.map (fun y => (x, y)) ++ allPairs xs

/-- `AnalysisEngine.analyzeDeadlocks`: pairwise resource sharing over the
threads that are waiting and carry a (possibly empty) `waitObjects` array. -/
def analyzeDeadlocks (threads : List ThreadInfo) : DeadlockInfo :=
  let waitingThreads := threads.filter
    (fun t => t.state == .waiting && t.waitObjects.isSome)
  if waitingThreads.length < 2 then { detected := false }
  else
    let cycles := (allPairs waitingThreads).filterMap (fun p =>
      let sharedObjects := sharedWaitObjects p.1 p.2
      if sharedObjects.length > 0 then
        some { threads := [p.1.id, p.2.id]
               resources := sharedObjects.map (fun obj => obj.handle)
               evidence := [{
                 type := "thread_state"
                 description := "Circular wait detected between threads " ++
                   toString p.1.id ++ " and " ++ toString p.2.id
                 technicalDetails := "Both threads are waiting on shared synchronization objects: " ++
                   String.intercalate ", " (sharedObjects.map (fun obj =>
                     obj.type ++ " (" ++ obj.handle ++ ")")) ++
                   ". This creates a circular dependency that can result in deadlock."
                 confidence := 80 }] }
      else none)
    { detected := decide (cycles.length > 0), cycles := some cycles }

/-- `AnalysisEngine.analyzeHeap`: the two `Math.random()` results are the
explicit parameters `rand1` (allocations) and `rand2` (leaked bytes); the
`modules` argument is unused in the source as well. -/
def analyzeHeap (exception : ExceptionInfo) (modules : List ModuleInfo)
    (rand1 rand2 : ℚ) : HeapAnalysis :=
  let heapCorruption := exception.code == "0xC0000374" ||
    jsIncludes (jsToLower exception.description) "heap"
  if !heapCorruption then { corruptionDetected := false }
  else
    { corruptionDetected := true
      corruptionPatterns := some ["Heap metadata corruption detected",
        "Invalid heap block signature", "Corrupted free list pointers"]
      evidence := some [{
        type := "heap_corruption"
        description := "Heap corruption indicators found"
        technicalDetails := "Exception code " ++ exception.code ++
          " indicates heap corruption. This typically occurs due to buffer overruns, double-free operations, or writing to freed memory. The corruption was detected at address " ++
          exception.address ++ "."
        confidence := 90
        memoryAddress := some exception.address }]
      allocationsCount := some (⌊rand1 * 10000⌋ + 1000)
      leakedBytes := some ⌊rand2 * 1000000⌋
      heapBlocks := some [
        { address := exception.address, size := "0x1000", status := "corrupted" },
        { address := "0x" ++ (match jsParseIntHex exception.address with
            | some n => jsHexString (n + 4096)
            | none => "NaN")
          size := "0x800", status := "allocated" }] }

/-- `AnalysisEngine.analyzeStack`. -/
def analyzeStack (exception : ExceptionInfo) (threads : List ThreadInfo) :
    StackAnalysis :=
  let stackOverflow := exception.code == "0xC00000FD"
  let mainThread := threads.find? (fun t => t.isMainThread)
  if !stackOverflow &&
      (match mainThread with
       | none => true
       | some mt => decide (mt.stackTrace.length < 50)) then
    { overflowDetected := false }
  else
    { overflowDetected := true
      stackDepth := some ((mainThread.map (fun t => t.stackTrace.length)).getD 0)
      guardPageStatus := some (if stackOverflow then "Violated" else "Intact")
      evidence := some [{
        type := "instruction_analysis"
        description := "Stack overflow detected"
        technicalDetails := "Stack overflow detected with " ++
          toString ((mainThread.map (fun t => t.stackTrace.length)).getD 0) ++
          " frames. The stack has exceeded its allocated space, likely due to infinite recursion or excessive local variable allocation. Stack range: " ++
          jsOptString (mainThread.bind (fun t => t.stackBase)) ++ " - " ++
          jsOptString (mainThread.bind (fun t => t.stackLimit))
        confidence := 95 }]
      stackRange := mainThread.map (fun mt =>
        { base := mt.stackBase.getD "0x00000000"
          limit := mt.stackLimit.getD "0x00000000"
          current := jsStringOr (mt.registers.bind (fun r => r.rsp))
            (jsStringOr (mt.registers.bind (fun r => r.esp)) "0x00000000") }) }

/-- `AnalysisEngine.generateAlternativeExplanations`. -/
def generateAlternativeExplanations (crashPattern : CrashPatternResult)
    (evidence : List TechnicalEvidence) : List String :=
  (if jsIncludes crashPattern.type "Access Violation" then
     ["Memory mapped file became invalid", "Virtual memory exhaustion",
      "Hardware memory error"]
   else []) ++
  (if evidence.any (fun e => e.type == "thread_state") then
     ["Resource contention without deadlock", "Priority inversion scenario"]
   else []) ++
  ["Timing-dependent race condition", "External process interference"]

/-- `AnalysisEngine.performCrashAnalysis`, with the two `Math.random()`
results of `analyzeHeap` passed in as `rand1 rand2`. -/
def performCrashAnalysis (data : AnalysisData) (rand1 rand2 : ℚ) : CrashAnalysis :=
  let crashPattern := detectCrashPattern data.exception
  let deadlockDetected := detectDeadlocks data.threads
  let deadlockInfo := analyzeDeadlocks data.threads
  let memoryCorruption := detectMemoryCorruption data.exception data.modules
  let stackOverflow := detectStackOverflow data.exception data.threads
  let stackAnalysis := analyzeStack data.exception data.threads
  let heapAnalysis := analyzeHeap data.exception data.modules rand1 rand2
  let problemModules := findProblematicModules data.modules data.exception
  let evidence := generateTechnicalEvidence data crashPattern
  let recommendations := generateRecommendations crashPattern deadlockDetected
    memoryCorruption stackOverflow problemModules
  let confidence := calculateConfidence data
  let alternativeExplanations := generateAlternativeExplanations crashPattern evidence
  { crashType := crashPattern.type
    severity := crashPattern.severity
    likelyRootCause := crashPattern.rootCause
    confidence := confidence
    recommendations := recommendations
    problemModules := problemModules
    deadlockDetected := deadlockDetected
    memoryCorruption := memoryCorruption
    stackOverflow := stackOverflow
    evidence := evidence
    deadlockInfo := some deadlockInfo
    heapAnalysis := some heapAnalysis
    stackAnalysis := some stackAnalysis
    alternativeExplanations := some alternativeExplanations }

/-- `AnalysisEngine.analyzeData`. -/
def analyzeData (data : AnalysisData) (rand1 rand2 : ℚ) : AnalysisData :=
  { data with analysis := performCrashAnalysis data rand1 rand2 }

/-- The claim's reading of a *waiter* (state waiting or blocked AND a
non-empty `waitObjects` list) and of the summary flag, written from the
spec's words for comparison with `detectDeadlocks`. -/
def claimDeadlockDetected (threads : List ThreadInfo) : Bool :=
  let waiters := threads.filter (fun t =>
    (t.state == .waiting || t.state == .blocked) &&
    (match t.waitObjects with
     | some ws => !ws.isEmpty
     | none => false))
  waiters.length > 1 && decide ((threads.length : ℚ) / 2 ≤ (waiters.length : ℚ))

/-- Erases the two `Math.random()`-derived fields of a heap detail block. -/
def scrubHeapRandom (h : HeapAnalysis) : HeapAnalysis :=
  { h with allocationsCount := none, leakedBytes := none }

/-- Erases the two `Math.random()`-derived fields of a full analysis. -/
def scrubRandom (a : CrashAnalysis) : CrashAnalysis :=
  { a with heapAnalysis := a.heapAnalysis.map scrubHeapRandom }

/-- A neutral file record for concrete snapshots. -/
def sampleDumpFile : DumpFile :=
  { name := "app.dmp", size := 1024, uploadedAt := 0, type := "minidump",
    architecture := "x64" }

/-- A neutral system record for concrete snapshots. -/
def sampleSystemInfo : SystemInfo :=
  { osVersion := "10.0", osServicePack := "", processorArchitecture := "x64",
    processorCount := 4, totalMemory := "16 GB", availableMemory := "8 GB",
    pageSize := "4 KB" }

/-- A neutral process record for concrete snapshots. -/
def sampleProcessInfo : ProcessInfo :=
  { name := "app.exe", id := 100, commandLine := "app.exe", startTime := "0",
    sessionId := 1, handleCount := 10, workingSetSize := "1 MB",
    peakWorkingSetSize := "1 MB", virtualSize := "1 MB", peakVirtualSize := "1 MB" }

/-- A neutral exception whose text matches no classifier keyword. -/
def sampleException : ExceptionInfo :=
  { code := "0x1", address := "0x0000000000000001", description := "",
    module := "", severity := .medium }

/-- A neutral stack frame. -/
def sampleFrame : StackFrame :=
  { address := "0x1", module := "app.exe", function := "fn", offset := "0x0",
    hasSymbols := true }

/-- A neutral thread. -/
def sampleThread : ThreadInfo :=
  { id := 1, state := .running, priority := 0, stackTrace := [], cpu := 0,
    kernelTime := 0, userTime := 0, isMainThread := false }

/-- A neutral module with symbols. -/
def sampleModule : ModuleInfo :=
  { name := "app.exe", baseAddress := "0x400000", endAddress := "0x500000",
    size := "0x100000", version := "1.0", description := "", company := "",
    path := "app.exe", imageType := "exe", hasSymbols := true, checksum := "0x0",
    timestamp := "0", isSystemModule := false }

/-- A placeholder pre-analysis block (the `analysis` field the decoder seeds
`AnalysisData` with before the engine overwrites it). -/
def sampleAnalysis : CrashAnalysis :=
  { crashType := "", severity := .medium, likelyRootCause := "",
    confidence := .num 0, recommendations := [], problemModules := [],
    deadlockDetected := false, memoryCorruption := false, stackOverflow := false,
    evidence := [] }

/-- A neutral statistics block. -/
def sampleStatistics : AnalysisStatistics :=
  { totalThreads := 0, runningThreads := 0, waitingThreads := 0,
    totalModules := 0, systemModules := 0, thirdPartyModules := 0,
    modulesWithSymbols := 0 }

/-- Builds a snapshot around the three inputs the engine reads. -/
def mkData (exception : ExceptionInfo) (threads : List ThreadInfo)
    (modules : List ModuleInfo) : AnalysisData :=
  { fileInfo := sampleDumpFile, systemInfo := sampleSystemInfo,
    processInfo := sampleProcessInfo, exception := exception, threads := threads,
    modules := modules, analysis := sampleAnalysis, statistics := sampleStatistics }

/-- A mutex wait object on the given handle. -/
def sampleWaitObject (handle : String) : WaitObject :=
  { type := "mutex", handle := handle, waitTime := 0, address := "0x0" }

/-- C1 input: a heap-corruption snapshot, where `analyzeHeap` reads the
random stream. -/
def c1Data : AnalysisData :=
  mkData { sampleException with
           code := "0xC0000374"
           description := "heap corruption detected" } [] []

/-- C2 input: a snapshot with no modules at all. -/
def c2DataEmpty : AnalysisData := mkData sampleException [] []

/-- C2 input: three modules, exactly one with symbols, a known exception
code, no threads, no module match — confidence `30 + 25/3`. -/
def c2DataFrac : AnalysisData :=
  mkData { sampleException with code := "0xC0000005" } []
    [{ sampleModule with name := "a.dll", hasSymbols := true },
     { sampleModule with name := "b.dll", hasSymbols := false },
     { sampleModule with name := "c.dll", hasSymbols := false }]

/-- C3 input: two waiting threads, neither carrying any wait object. -/
def c3Threads : List ThreadInfo :=
  [{ sampleThread with id := 1, state := .waiting },
   { sampleThread with id := 2, state := .waiting }]

/-- C4 input: an exception matching no classifier rule. -/
def c4Exc : ExceptionInfo :=
  { sampleException with code := "0x1", description := "something odd happened" }

/-- C4 witness input: a textbook access violation. -/
def c4WitnessExc : ExceptionInfo :=
  { sampleException with
    code := "0xC0000005"
    description := "Access violation reading location 0x0" }

/-- C5 witness input: two waiting threads sharing handle `0x44`. -/
def c5Threads : List ThreadInfo :=
  [{ sampleThread with
     id := 1
     state := .waiting
     waitObjects := some [sampleWaitObject "0x44"] },
   { sampleThread with
     id := 2
     state := .waiting
     waitObjects := some [sampleWaitObject "0x44", sampleWaitObject "0x45"] },
   { sampleThread with id := 3, state := .running }]

/-- C6 witness input: access-violation code. -/
def c6Exc : ExceptionInfo :=
  { sampleException with code := "0xC0000005", description := "boom" }

/-- C6 witness input: one module lacking symbols. -/
def c6Mods : List ModuleInfo :=
  [{ sampleModule with name := "third.dll", hasSymbols := false }]

/-- C7 input: a generic (non-stack-overflow) exception code. -/
def c7Exc : ExceptionInfo :=
  { sampleException with code := "Unknown", description := "" }

/-- C7 input: the main thread with a 60-frame stack trace. -/
def c7Main : ThreadInfo :=
  { sampleThread with
    id := 1
    isMainThread := true
    stackTrace := List.replicate 60 sampleFrame }

/-- C7 thread list. -/
def c7Threads : List ThreadInfo := [c7Main]

/-- C9 witness input: the parser's own stack-overflow description — its word
`thread` contains `read`. -/
def c9Exc : ExceptionInfo :=
  { sampleException with
    code := "0xC00000FD"
    description := "The thread used up its stack" }

/-- C10 input: main thread with exactly 50 frames. -/
def c10Main : ThreadInfo :=
  { sampleThread with
    id := 1
    isMainThread := true
    stackTrace := List.replicate 50 sampleFrame }

/-- C10 thread list. -/
def c10Threads : List ThreadInfo := [c10Main]

/-- C9: if the lower-cased `code description` text contains `read` — e.g. via
the word `thread` — the first rule (access violation) wins with severity
critical and root cause `Null pointer dereference`. -/
theorem c9_read_substring_quirk (exception : ExceptionInfo)
    (h : jsIncludes (jsToLower (exception.code ++ " " ++ exception.description))
          "read" = true) :
    detectCrashPattern exception =
      { type := "Access Violation"
        severity := .critical
        rootCause := "Null pointer dereference"
        possibleCauses := ["Null pointer dereference", "Use after free",
          "Buffer overflow", "Uninitialized pointer", "Memory corruption"] } := by
  have hread : jsToLower "read" = "read" := by decide
  have hfmt : formatCrashType "accessViolation" = "Access Violation" := by decide
  have hmatch : ruleMatches
      (jsToLower (exception.code ++ " " ++ exception.description))
      accessViolationPattern = true := by
    simp only [ruleMatches, accessViolationPattern, List.any_cons, List.any_nil,
      hread, h, Bool.or_true, Bool.true_or, Bool.or_false]
  unfold detectCrashPattern
  simp only [CRASH_PATTERNS, List.find?_cons, hmatch]
  simp [hfmt, accessViolationPattern]

/-- C9 witness: the parser's stack-overflow description `The thread used up
its stack` (code `0xC00000FD`) is classified as an access violation. -/
theorem c9_read_substring_quirk_witness :
    jsIncludes (jsToLower (c9Exc.code ++ " " ++ c9Exc.description)) "read" = true ∧
    detectCrashPattern c9Exc =
      { type := "Access Violation"
        severity := .critical
        rootCause := "Null pointer dereference"
        possibleCauses := ["Null pointer dereference", "Use after free",
          "Buffer overflow", "Uninitialized pointer", "Memory corruption"] } :=
  ⟨by decide, c9_read_substring_quirk c9Exc (by decide)⟩

/-- C4 counterexample: on an exception matching no rule the classifier emits
root cause `Unable to determine root cause from available information` — not
the claimed `insufficient information to determine cause`. -/
theorem c4_classifier_counterexample :
    detectCrashPattern c4Exc =
      { type := "Unknown Exception"
        severity := .medium
        rootCause := "Unable to determine root cause from available information"
        possibleCauses := ["Insufficient debugging information",
          "Complex interaction between components"] } ∧
    (detectCrashPattern c4Exc).rootCause ≠
      "insufficient information to determine cause" := by
  constructor
  · decide
  · decide

/-- C4 (amended): the classifier tests the lower-cased `code description`
concatenation against the ordered rule table, first match wins with the
rule's first candidate cause as root cause; when no rule matches it emits
category `Unknown Exception`, severity medium and root cause
`Unable to determine root cause from available information`. -/
theorem c4_classifier_first_match (exception : ExceptionInfo) :
    (ruleMatches (jsToLower (exception.code ++ " " ++ exception.description))
        accessViolationPattern = true →
      detectCrashPattern exception =
        { type := "Access Violation", severity := .critical
          rootCause := "Null pointer dereference"
          possibleCauses := accessViolationPattern.commonCauses }) ∧
    (ruleMatches (jsToLower (exception.code ++ " " ++ exception.description))
        accessViolationPattern = false →
     ruleMatches (jsToLower (exception.code ++ " " ++ exception.description))
        stackOverflowPattern = true →
      detectCrashPattern exception =
        { type := "Stack Overflow", severity := .critical
          rootCause := "Infinite recursion"
          possibleCauses := stackOverflowPattern.commonCauses }) ∧
    (ruleMatches (jsToLower (exception.code ++ " " ++ exception.description))
        accessViolationPattern = false →
     ruleMatches (jsToLower (exception.code ++ " " ++ exception.description))
        stackOverflowPattern = false →
     ruleMatches (jsToLower (exception.code ++ " " ++ exception.description))
        heapCorruptionPattern = true →
      detectCrashPattern exception =
        { type := "Heap Corruption", severity := .critical
          rootCause := "Double free"
          possibleCauses := heapCorruptionPattern.commonCauses }) ∧
    (ruleMatches (jsToLower (exception.code ++ " " ++ exception.description))
        accessViolationPattern = false →
     ruleMatches (jsToLower (exception.code ++ " " ++ exception.description))
        stackOverflowPattern = false →
     ruleMatches (jsToLower (exception.code ++ " " ++ exception.description))
        heapCorruptionPattern = false →
     ruleMatches (jsToLower (exception.code ++ " " ++ exception.description))
        divideByZeroPattern = true →
      detectCrashPattern exception =
        { type := "Divide By Zero", severity := .high
          rootCause := "Unvalidated input"
          possibleCauses := divideByZeroPattern.commonCauses }) ∧
    (ruleMatches (jsToLower (exception.code ++ " " ++ exception.description))
        accessViolationPattern = false →
     ruleMatches (jsToLower (exception.code ++ " " ++ exception.description))
        stackOverflowPattern = false →
     ruleMatches (jsToLower (exception.code ++ " " ++ exception.description))
        heapCorruptionPattern = false →
     ruleMatches (jsToLower (exception.code ++ " " ++ exception.description))
        divideByZeroPattern = false →
      detectCrashPattern exception =
        { type := "Unknown Exception", severity := .medium
          rootCause := "Unable to determine root cause from available information"
          possibleCauses := ["Insufficient debugging information",
            "Complex interaction between components"] }) := by
  have hav : formatCrashType "accessViolation" = "Access Violation" := by decide
  have hso : formatCrashType "stackOverflow" = "Stack Overflow" := by decide
  have hhc : formatCrashType "heapCorruption" = "Heap Corruption" := by decide
  have hdz : formatCrashType "divideByZero" = "Divide By Zero" := by decide
  refine ⟨fun h1 => ?_, fun h1 h2 => ?_, fun h1 h2 h3 => ?_,
    fun h1 h2 h3 h4 => ?_, fun h1 h2 h3 h4 => ?_⟩
  · unfold detectCrashPattern
    simp only [CRASH_PATTERNS, List.find?_cons, h1]
    simp [hav, accessViolationPattern]
  · unfold detectCrashPattern
    simp only [CRASH_PATTERNS, List.find?_cons, h1, h2]
    simp [hso, stackOverflowPattern]
  · unfold detectCrashPattern
    simp only [CRASH_PATTERNS, List.find?_cons, h1, h2, h3]
    simp [hhc, heapCorruptionPattern]
  · unfold detectCrashPattern
    simp only [CRASH_PATTERNS, List.find?_cons, h1, h2, h3, h4]
    simp [hdz, divideByZeroPattern]
  · unfold detectCrashPattern
    simp only [CRASH_PATTERNS, List.find?_cons, h1, h2, h3, h4, List.find?_nil]

/-- C4 witness: a textbook access-violation exception takes the first rule. -/
theorem c4_classifier_first_match_witness :
    ruleMatches (jsToLower (c4WitnessExc.code ++ " " ++ c4WitnessExc.description))
      accessViolationPattern = true ∧
    detectCrashPattern c4WitnessExc =
      { type := "Access Violation", severity := .critical
        rootCause := "Null pointer dereference"
        possibleCauses := accessViolationPattern.commonCauses } :=
  ⟨by decide, (c4_classifier_first_match c4WitnessExc).1 (by decide)⟩

/-- C7 counterexample: with a generic exception code and a 60-frame main
thread, the overflow branch fires but `guardPageStatus` is the capitalised
`Intact`, not the claimed `intact`. -/
theorem c7_stack_overflow_counterexample :
    detectStackOverflow c7Exc c7Threads = true ∧
    (analyzeStack c7Exc c7Threads).overflowDetected = true ∧
    (analyzeStack c7Exc c7Threads).guardPageStatus = some "Intact" ∧
    (analyzeStack c7Exc c7Threads).guardPageStatus ≠ some "intact" := by
  refine ⟨by decide, by decide, by decide, by decide⟩

/-- C7 (amended): `stackOverflow` is true iff the exception code is the
stack-overflow code or the main thread's stack trace exceeds 50 frames; and
when triggered by depth alone (non-stack-overflow code, main-thread depth
60), `stackAnalysis.overflowDetected` is true with `guardPageStatus` equal to
`Intact`. -/
theorem c7_stack_overflow_amended (exception : ExceptionInfo)
    (threads : List ThreadInfo) :
    (detectStackOverflow exception threads = true ↔
      exception.code = "0xC00000FD" ∨
      ∃ t, threads.find? (fun t => t.isMainThread) = some t ∧
        50 < t.stackTrace.length) ∧
    (exception.code ≠ "0xC00000FD" →
      ∀ t, threads.find? (fun t => t.isMainThread) = some t →
        t.stackTrace.length = 60 →
        (analyzeStack exception threads).overflowDetected = true ∧
        (analyzeStack exception threads).guardPageStatus = some "Intact") := by
  constructor
  · by_cases hc : exception.code = "0xC00000FD"
    · unfold detectStackOverflow
      simp [hc]
    · unfold detectStackOverflow
      cases hf : threads.find? (fun t => t.isMainThread) with
      | none => simp [hc, hf]
      | some mt => simp [hc, hf]
  · intro hne t hf h60
    unfold analyzeStack
    have hbe : (exception.code == "0xC00000FD") = false := by
      simp [hne]
    constructor
    · simp [hbe, hf, h60]
    · simp [hbe, hf, h60]

/-- C7 witness: the amended depth-alone case at the concrete 60-frame
snapshot. -/
theorem c7_stack_overflow_amended_witness :
    (c7Exc.code ≠ "0xC00000FD" ∧
     c7Threads.find? (fun t => t.isMainThread) = some c7Main ∧
     c7Main.stackTrace.length = 60) ∧
    ((analyzeStack c7Exc c7Threads).overflowDetected = true ∧
     (analyzeStack c7Exc c7Threads).guardPageStatus = some "Intact") :=
  ⟨⟨by decide, by decide, by decide⟩,
   (c7_stack_overflow_amended c7Exc c7Threads).2 (by decide) c7Main
     (by decide) (by decide)⟩

/-- C10: at exactly 50 frames (non-stack-overflow code) the summary flag is
false while the detail block reports an overflow — the two outputs
disagree. -/
theorem c10_depth_threshold_disagreement (exception : ExceptionInfo)
    (threads : List ThreadInfo) (mainThread : ThreadInfo)
    (h1 : exception.code ≠ "0xC00000FD")
    (h2 : threads.find? (fun t => t.isMainThread) = some mainThread)
    (h3 : mainThread.stackTrace.length = 50) :
    detectStackOverflow exception threads = false ∧
    (analyzeStack exception threads).overflowDetected = true := by
  have hbe : (exception.code == "0xC00000FD") = false := by
    simp [h1]
  constructor
  · unfold detectStackOverflow
    simp [hbe, h2, h3]
  · unfold analyzeStack
    simp [hbe, h2, h3]

/-- C10 witness: the disagreement at a concrete 50-frame main thread. -/
theorem c10_depth_threshold_disagreement_witness :
    (sampleException.code ≠ "0xC00000FD" ∧
     c10Threads.find? (fun t => t.isMainThread) = some c10Main ∧
     c10Main.stackTrace.length = 50) ∧
    (detectStackOverflow sampleException c10Threads = false ∧
     (analyzeStack sampleException c10Threads).overflowDetected = true) :=
  ⟨⟨by decide, by decide, by decide⟩,
   c10_depth_threshold_disagreement sampleException c10Threads c10Main
     (by decide) (by decide) (by decide)⟩

/-- C3 counterexample: two waiting threads with no wait objects at all —
`detectDeadlocks` fires although the claim's waiter definition (non-empty
`waitObjects`) admits no waiter. -/
theorem c3_deadlock_flag_counterexample :
    detectDeadlocks c3Threads = true ∧ claimDeadlockDetected c3Threads = false := by
  constructor
  · unfold detectDeadlocks
    norm_num [c3Threads, sampleThread]
  · decide

/-- C3 (amended): `deadlockDetected` is true iff more than one thread is
waiting or blocked and those threads are at least half of all threads — with
no requirement on `waitObjects`. -/
theorem c3_deadlock_flag_amended (threads : List ThreadInfo) :
    detectDeadlocks threads = true ↔
      (1 < (threads.filter (fun t =>
              t.state == .waiting || t.state == .blocked)).length ∧
       threads.length ≤
         2 * (threads.filter (fun t =>
                t.state == .waiting || t.state == .blocked)).length) := by
  unfold detectDeadlocks
  simp only [gt_iff_lt, Bool.and_eq_true, decide_eq_true_eq]
  constructor
  · rintro ⟨hw, hh⟩
    refine ⟨hw, ?_⟩
    have h2 := (div_le_iff₀ (by norm_num : (0 : ℚ) < 2)).mp hh
    have h3 : threads.length ≤
        (threads.filter (fun t =>
          t.state == .waiting || t.state == .blocked)).length * 2 := by
      exact_mod_cast h2
    omega
  · rintro ⟨hw, hh⟩
    refine ⟨hw, ?_⟩
    rw [div_le_iff₀ (by norm_num : (0 : ℚ) < 2)]
    have h3 : threads.length ≤
        (threads.filter (fun t =>
          t.state == .waiting || t.state == .blocked)).length * 2 := by omega
    exact_mod_cast h3

/-- C6: `memoryCorruption` is true iff at least two of the four indicators
hold; in particular the access-violation code together with a module lacking
symbols suffices. -/
theorem c6_memory_corruption (exception : ExceptionInfo)
    (modules : List ModuleInfo) :
    (detectMemoryCorruption exception modules = true ↔
      2 ≤ (if exception.code = "0xC0000005" then 1 else 0) +
          (if exception.code = "0xC0000374" then 1 else 0) +
          (if jsIncludes (jsToLower exception.description) "corruption" = true
           then 1 else 0) +
          (if ∃ m ∈ modules,
                jsIncludes (jsToLower m.name) "unknown" = true ∨
                m.hasSymbols = false
           then 1 else 0)) ∧
    (exception.code = "0xC0000005" →
      (∃ m ∈ modules, m.hasSymbols = false) →
      detectMemoryCorruption exception modules = true) := by
  have hiff : detectMemoryCorruption exception modules = true ↔
      2 ≤ (if exception.code = "0xC0000005" then 1 else 0) +
          (if exception.code = "0xC0000374" then 1 else 0) +
          (if jsIncludes (jsToLower exception.description) "corruption" = true
           then 1 else 0) +
          (if ∃ m ∈ modules,
                jsIncludes (jsToLower m.name) "unknown" = true ∨
                m.hasSymbols = false
           then 1 else 0) := by
    unfold detectMemoryCorruption
    cases hb1 : (exception.code == "0xC0000005") <;>
    cases hb2 : (exception.code == "0xC0000374") <;>
    cases hb3 : (jsIncludes (jsToLower exception.description) "corruption") <;>
    cases hb4 : (modules.any (fun m =>
        jsIncludes (jsToLower m.name) "unknown" || !m.hasSymbols)) <;>
    simp_all [beq_iff_eq, beq_eq_false_iff_ne, List.any_eq_true,
      Bool.or_eq_true, Bool.not_eq_true', List.filter] <;>
    · have hne : ¬ ∃ m ∈ modules,
          jsIncludes (jsToLower m.name) "unknown" = true ∨
          m.hasSymbols = false := by
        rintro ⟨m, hm, hor⟩
        rcases hb4 m hm with ⟨hu, hs⟩
        cases hor with
        | inl h => simp_all
        | inr h => simp_all
      rw [if_neg hne]
      omega
  refine ⟨hiff, fun h1 hex => hiff.mpr ?_⟩
  rcases hex with ⟨m, hm, hsym⟩
  rw [if_pos h1]
  rw [if_pos (show ∃ m ∈ modules,
      jsIncludes (jsToLower m.name) "unknown" = true ∨ m.hasSymbols = false
    from ⟨m, hm, Or.inr hsym⟩)]
  split_ifs <;> omega

/-- C6 witness: access-violation code plus one module lacking symbols. -/
theorem c6_memory_corruption_witness :
    (c6Exc.code = "0xC0000005" ∧ ∃ m ∈ c6Mods, m.hasSymbols = false) ∧
    detectMemoryCorruption c6Exc c6Mods = true :=
  ⟨⟨by decide, by decide⟩,
   (c6_memory_corruption c6Exc c6Mods).2 (by decide) (by decide)⟩

/-- Both components of a pair produced by `allPairs` come from the list. -/
theorem mem_of_mem_allPairs {α : Type} {a b : α} :
    ∀ {l : List α}, (a, b) ∈ allPairs l → a ∈ l ∧ b ∈ l := by
  intro l h
  induction l with
  | nil => simp [allPairs] at h
  | cons x xs ih =>
    simp only [allPairs, List.mem_append, List.mem_map, Prod.mk.injEq] at h
    rcases h with ⟨y, hy, hxa, hyb⟩ | h
    · subst hxa; subst hyb
      exact ⟨List.mem_cons_self _ _, List.mem_cons_of_mem _ hy⟩
    · rcases ih h with ⟨ha, hb⟩
      exact ⟨List.mem_cons_of_mem _ ha, List.mem_cons_of_mem _ hb⟩

/-- A pair produced by `allPairs` has distinct images under any function that
is duplicate-free on the list. -/
theorem ne_of_mem_allPairs {α β : Type} {a b : α} (f : α → β) :
    ∀ {l : List α}, (a, b) ∈ allPairs l → (l.map f).Nodup → f a ≠ f b := by
  intro l h hn
  induction l with
  | nil => simp [allPairs] at h
  | cons x xs ih =>
    rw [List.map_cons, List.nodup_cons] at hn
    simp only [allPairs, List.mem_append, List.mem_map, Prod.mk.injEq] at h
    rcases h with ⟨y, hy, hxa, hyb⟩ | h
    · subst hxa; subst hyb
      intro heq
      exact hn.1 (heq ▸ List.mem_map_of_mem f hy)
    · exact ih h hn.2

/-- C5: assuming unique thread ids, every reported cycle names two distinct
waiting threads that share a wait-object handle listed in its resources. -/
theorem c5_cycle_soundness (threads : List ThreadInfo)
    (hids : (threads.map (fun t => t.id)).Nodup) :
    ∀ cycles, (analyzeDeadlocks threads).cycles = some cycles →
    ∀ c ∈ cycles, ∃ t1 t2,
      t1 ∈ threads ∧ t2 ∈ threads ∧ t1.id ≠ t2.id ∧
      c.threads = [t1.id, t2.id] ∧
      (t1.state = .waiting ∨ t1.state = .blocked) ∧
      (t2.state = .waiting ∨ t2.state = .blocked) ∧
      ∃ handle ∈ c.resources,
        (∃ o1 ∈ t1.waitObjects.getD [], o1.handle = handle) ∧
        (∃ o2 ∈ t2.waitObjects.getD [], o2.handle = handle) := by
  intro cycles hcycles c hc
  unfold analyzeDeadlocks at hcycles
  by_cases hlen : (threads.filter
      (fun t => t.state == .waiting && t.waitObjects.isSome)).length < 2
  · rw [if_pos hlen] at hcycles
    simp at hcycles
  · rw [if_neg hlen] at hcycles
    simp only [Option.some.injEq] at hcycles
    subst hcycles
    rw [List.mem_filterMap] at hc
    obtain ⟨p, hp, hfp⟩ := hc
    obtain ⟨t1, t2⟩ := p
    by_cases hshared : (sharedWaitObjects t1 t2).length > 0
    · rw [if_pos hshared, Option.some.injEq] at hfp
      subst hfp
      have hmem := mem_of_mem_allPairs hp
      have hwtid : ((threads.filter
          (fun t => t.state == .waiting && t.waitObjects.isSome)).map
            (fun t => t.id)).Nodup :=
        hids.sublist (List.Sublist.map _ (List.filter_sublist _))
      have hne := ne_of_mem_allPairs (fun t => t.id) hp hwtid
      obtain ⟨hmem1, hmem2⟩ := hmem
      rw [List.mem_filter] at hmem1 hmem2
      obtain ⟨ht1, hc1⟩ := hmem1
      obtain ⟨ht2, hc2⟩ := hmem2
      simp only [Bool.and_eq_true, beq_iff_eq] at hc1 hc2
      obtain ⟨o, ho⟩ := List.exists_mem_of_length_pos hshared
      have ho' := ho
      unfold sharedWaitObjects at ho'
      rw [List.mem_filter] at ho'
      obtain ⟨ho1, hany⟩ := ho'
      rw [List.any_eq_true] at hany
      obtain ⟨o2, ho2, hbeq⟩ := hany
      rw [beq_iff_eq] at hbeq
      refine ⟨t1, t2, ht1, ht2, hne, rfl, Or.inl hc1.1, Or.inl hc2.1,
        o.handle, List.mem_map_of_mem _ ho, ⟨o, ho1, rfl⟩, ⟨o2, ho2, hbeq⟩⟩
    · rw [if_neg hshared] at hfp
      simp at hfp

/-- C5 witness: the concrete three-thread snapshot with a shared handle. -/
theorem c5_cycle_soundness_witness :
    (c5Threads.map (fun t => t.id)).Nodup ∧
    (∀ cycles, (analyzeDeadlocks c5Threads).cycles = some cycles →
     ∀ c ∈ cycles, ∃ t1 t2,
       t1 ∈ c5Threads ∧ t2 ∈ c5Threads ∧ t1.id ≠ t2.id ∧
       c.threads = [t1.id, t2.id] ∧
       (t1.state = .waiting ∨ t1.state = .blocked) ∧
       (t2.state = .waiting ∨ t2.state = .blocked) ∧
       ∃ handle ∈ c.resources,
         (∃ o1 ∈ t1.waitObjects.getD [], o1.handle = handle) ∧
         (∃ o2 ∈ t2.waitObjects.getD [], o2.handle = handle)) :=
  ⟨by decide, c5_cycle_soundness c5Threads (by decide)⟩

/-- Nothing produced by `jsSetDedupAux seen l` lies in `seen`. -/
theorem mem_jsSetDedupAux {x : String} :
    ∀ {l seen : List String}, x ∈ jsSetDedupAux seen l → x ∉ seen := by
  intro l
  induction l with
  | nil =>
    intro seen h
    simp [jsSetDedupAux] at h
  | cons y ys ih =>
    intro seen h
    unfold jsSetDedupAux at h
    by_cases hc : seen.contains y = true
    · rw [if_pos hc] at h
      exact ih h
    · rw [if_neg hc] at h
      rcases List.mem_cons.mp h with rfl | h2
      · intro hx
        exact hc (List.elem_eq_true_of_mem hx)
      · intro hx
        exact ih h2 (List.mem_cons_of_mem _ hx)

/-- `jsSetDedupAux` emits no duplicates. -/
theorem nodup_jsSetDedupAux :
    ∀ (l seen : List String), (jsSetDedupAux seen l).Nodup := by
  intro l
  induction l with
  | nil =>
    intro seen
    simp [jsSetDedupAux]
  | cons y ys ih =>
    intro seen
    unfold jsSetDedupAux
    by_cases hc : seen.contains y = true
    · rw [if_pos hc]
      exact ih _
    · rw [if_neg hc]
      refine List.nodup_cons.mpr ⟨?_, ih _⟩
      intro hy
      exact mem_jsSetDedupAux hy (List.mem_cons_self _ _)

/-- `[...new Set(l)]` contains no duplicates. -/
theorem jsSetDedup_nodup (l : List String) : (jsSetDedup l).Nodup :=
  nodup_jsSetDedupAux l []

/-- A string with a fixed prefix differs from any string whose first `k`
characters differ from the prefix's. -/
theorem append_ne_of_take_ne {pre s lit : String} (k : Nat)
    (hk : k ≤ pre.data.length) (h : pre.data.take k ≠ lit.data.take k) :
    pre ++ s ≠ lit := by
  intro heq
  apply h
  have hdata : pre.data ++ s.data = lit.data := by
    rw [← String.data_append, heq]
  calc pre.data.take k = (pre.data ++ s.data).take k := by
        rw [List.take_append_of_le_length hk]
    _ = lit.data.take k := by rw [hdata]

/-- The dynamic problem-modules recommendation differs from every other
recommendation string the generator can emit. -/
theorem updateModulesRec_not_mem (s : String) :
    ("Update or replace problematic modules: " ++ s) ∉
      ["Review pointer usage and ensure proper null checks",
       "Use static analysis tools to detect potential buffer overflows",
       "Enable Application Verifier to catch heap corruption early",
       "Review recursive function calls for proper termination conditions",
       "Consider reducing local variable sizes or moving to heap allocation",
       "Increase stack size if recursion depth is expected",
       "Review thread synchronization and lock ordering",
       "Consider using deadlock detection tools during development",
       "Implement timeout mechanisms for lock acquisitions",
       "Enable heap debugging features in debug builds",
       "Use memory debugging tools like Application Verifier",
       "Review memory allocation and deallocation patterns",
       "Ensure all third-party libraries are compatible with your application",
       "Reproduce the issue in a controlled environment",
       "Enable crash dumps and logging for better diagnostics",
       "Update to the latest version of runtime libraries"] := by
  intro h
  simp only [List.mem_cons, List.not_mem_nil, or_false] at h
  rcases h with h|h|h|h|h|h|h|h|h|h|h|h|h|h|h|h <;>
    exact append_ne_of_take_ne 8 (by decide) (by decide) h

/-- The recommendation list never contains duplicates, whatever the inputs. -/
theorem generateRecommendations_nodup (crashPattern : CrashPatternResult)
    (deadlockDetected memoryCorruption stackOverflow : Bool)
    (problemModules : List String) :
    (generateRecommendations crashPattern deadlockDetected memoryCorruption
      stackOverflow problemModules).Nodup := by
  have hblock : ∀ (c : Prop) (inst : Decidable c) (xs : List String),
      List.Sublist (if c then xs else []) xs := by
    intro c inst xs
    split
    · exact List.Sublist.refl _
    · exact List.nil_sublist _
  have hsub : List.Sublist (generateRecommendations crashPattern deadlockDetected
      memoryCorruption stackOverflow problemModules)
      (["Review pointer usage and ensure proper null checks",
       "Use static analysis tools to detect potential buffer overflows",
       "Enable Application Verifier to catch heap corruption early"] ++
      ["Review recursive function calls for proper termination conditions",
       "Consider reducing local variable sizes or moving to heap allocation",
       "Increase stack size if recursion depth is expected"] ++
      ["Review thread synchronization and lock ordering",
       "Consider using deadlock detection tools during development",
       "Implement timeout mechanisms for lock acquisitions"] ++
      ["Enable heap debugging features in debug builds",
       "Use memory debugging tools like Application Verifier",
       "Review memory allocation and deallocation patterns"] ++
      ["Update or replace problematic modules: " ++
         String.intercalate ", " problemModules,
       "Ensure all third-party libraries are compatible with your application"] ++
      ["Reproduce the issue in a controlled environment",
       "Enable crash dumps and logging for better diagnostics",
       "Update to the latest version of runtime libraries"]) := by
    unfold generateRecommendations
    exact List.Sublist.append (List.Sublist.append (List.Sublist.append
      (List.Sublist.append (List.Sublist.append (hblock _ _ _) (hblock _ _ _))
        (hblock _ _ _)) (hblock _ _ _)) (hblock _ _ _)) (List.Sublist.refl _)
  refine List.Nodup.sublist hsub ?_
  have heq :
      (["Review pointer usage and ensure proper null checks",
        "Use static analysis tools to detect potential buffer overflows",
        "Enable Application Verifier to catch heap corruption early"] ++
       ["Review recursive function calls for proper termination conditions",
        "Consider reducing local variable sizes or moving to heap allocation",
        "Increase stack size if recursion depth is expected"] ++
       ["Review thread synchronization and lock ordering",
        "Consider using deadlock detection tools during development",
        "Implement timeout mechanisms for lock acquisitions"] ++
       ["Enable heap debugging features in debug builds",
        "Use memory debugging tools like Application Verifier",
        "Review memory allocation and deallocation patterns"] ++
       ["Update or replace problematic modules: " ++
          String.intercalate ", " problemModules,
        "Ensure all third-party libraries are compatible with your application"] ++
       ["Reproduce the issue in a controlled environment",
        "Enable crash dumps and logging for better diagnostics",
        "Update to the latest version of runtime libraries"]) =
      ["Review pointer usage and ensure proper null checks",
       "Use static analysis tools to detect potential buffer overflows",
       "Enable Application Verifier to catch heap corruption early",
       "Review recursive function calls for proper termination conditions",
       "Consider reducing local variable sizes or moving to heap allocation",
       "Increase stack size if recursion depth is expected",
       "Review thread synchronization and lock ordering",
       "Consider using deadlock detection tools during development",
       "Implement timeout mechanisms for lock acquisitions",
       "Enable heap debugging features in debug builds",
       "Use memory debugging tools like Application Verifier",
       "Review memory allocation and deallocation patterns"] ++
      ("Update or replace problematic modules: " ++
         String.intercalate ", " problemModules) ::
      ["Ensure all third-party libraries are compatible with your application",
       "Reproduce the issue in a controlled environment",
       "Enable crash dumps and logging for better diagnostics",
       "Update to the latest version of runtime libraries"] := rfl
  rw [heq, List.nodup_middle]
  refine List.nodup_cons.mpr ⟨?_, by decide⟩
  intro hmem
  exact updateModulesRec_not_mem (String.intercalate ", " problemModules)
    (by simpa using hmem)

/-- C8: on every snapshot the engine's `problemModules` and
`recommendations` outputs are duplicate-free. -/
theorem c8_dedup (data : AnalysisData) (rand1 rand2 : ℚ) :
    (performCrashAnalysis data rand1 rand2).problemModules.Nodup ∧
    (performCrashAnalysis data rand1 rand2).recommendations.Nodup := by
  constructor
  · exact jsSetDedup_nodup _
  · exact generateRecommendations_nodup _ _ _ _ _

/-- `jsAdd` on finite values. -/
theorem jsAdd_num (a b : ℚ) : jsAdd (.num a) (.num b) = .num (a + b) := rfl

/-- `jsMul` on finite values. -/
theorem jsMul_num (a b : ℚ) : jsMul (.num a) (.num b) = .num (a * b) := rfl

/-- `jsMin` on finite values. -/
theorem jsMin_num (a b : ℚ) : jsMin (.num a) (.num b) = .num (min a b) := rfl

/-- `jsMax` on finite values. -/
theorem jsMax_num (a b : ℚ) : jsMax (.num a) (.num b) = .num (max a b) := rfl

/-- `jsDiv` on finite values with nonzero denominator. -/
theorem jsDiv_num {a b : ℚ} (hb : b ≠ 0) :
    jsDiv (.num a) (.num b) = .num (a / b) := by
  simp [jsDiv, hb]

/-- NaN absorbs on the left of `jsMul`. -/
theorem jsMul_nan_left (x : JSNum) : jsMul .nan x = .nan := by
  cases x <;> rfl

/-- NaN absorbs on the right of `jsAdd`. -/
theorem jsAdd_nan_right (x : JSNum) : jsAdd x .nan = .nan := by
  cases x <;> rfl

/-- NaN absorbs on the right of `jsMin`. -/
theorem jsMin_nan_right (x : JSNum) : jsMin x .nan = .nan := by
  cases x <;> rfl

/-- NaN absorbs on the right of `jsMax`. -/
theorem jsMax_nan_right (x : JSNum) : jsMax x .nan = .nan := by
  cases x <;> rfl

/-- C2 counterexample: with no modules the confidence is NaN (the symbols
term divides `0/0`), and with three modules of which one has symbols the
confidence is `115/3`, which is not an integer (a rational is an integer
exactly when its reduced denominator is 1; here it is 3). -/
theorem c2_confidence_counterexample :
    calculateConfidence c2DataEmpty = JSNum.nan ∧
    calculateConfidence c2DataFrac = JSNum.num (115 / 3) ∧
    (115 / 3 : ℚ).den = 3 := by
  refine ⟨?_, ?_, ?_⟩
  · unfold calculateConfidence
    dsimp only
    rw [if_pos (show c2DataEmpty.exception.code ≠ "" ∧
        c2DataEmpty.exception.code ≠ "Unknown" from by decide)]
    norm_num [c2DataEmpty, mkData, sampleException, jsDiv, jsAdd_num, jsMin_num,
      jsMul_nan_left, jsMin_nan_right, jsAdd_nan_right, jsMax_nan_right,
      min_def, max_def]
  · unfold calculateConfidence
    dsimp only
    rw [if_pos (show c2DataFrac.exception.code ≠ "" ∧
        c2DataFrac.exception.code ≠ "Unknown" from by decide)]
    norm_num [c2DataFrac, mkData, sampleException, sampleModule, List.filter,
      jsDiv, jsAdd_num, jsMin_num, jsMul_num, jsMax_num, min_def, max_def]
  · norm_num [Rat.den]

/-- C2 (amended): whenever the snapshot has at least one module the
confidence is a finite rational clamped to `[0, 100]` (not necessarily an
integer); with no modules the symbols term is `0/0` and the result NaN. -/
theorem c2_confidence_amended (data : AnalysisData) (h : data.modules ≠ []) :
    ∃ q : ℚ, calculateConfidence data = JSNum.num q ∧ 0 ≤ q ∧ q ≤ 100 := by
  have hm : ((data.modules.length : ℚ)) ≠ 0 := by
    have h0 : data.modules.length ≠ 0 := fun h0 => h (List.length_eq_zero.mp h0)
    exact_mod_cast h0
  unfold calculateConfidence
  by_cases h1 : data.exception.code ≠ "" ∧ data.exception.code ≠ "Unknown" <;>
  by_cases h2 : data.exception.module ≠ "" ∧
      (data.modules.find? (fun m => m.name == data.exception.module)).isSome <;>
  simp only [h1, h2, ne_eq, and_true, true_and, and_self, if_true, if_false,
    jsAdd_num, jsMul_num, jsMin_num, jsMax_num, jsDiv_num hm] <;>
  exact ⟨_, rfl, le_min (by norm_num) (le_max_left _ _), min_le_left _ _⟩

/-- C2 witness: the amended bound at the three-module snapshot. -/
theorem c2_confidence_amended_witness :
    c2DataFrac.modules ≠ [] ∧
    ∃ q : ℚ, calculateConfidence c2DataFrac = JSNum.num q ∧ 0 ≤ q ∧ q ≤ 100 :=
  ⟨by decide, c2_confidence_amended c2DataFrac (by decide)⟩

/-- The orchestrator's heap detail block is `analyzeHeap` on the snapshot. -/
theorem performCrashAnalysis_heapAnalysis (data : AnalysisData) (r1 r2 : ℚ) :
    (performCrashAnalysis data r1 r2).heapAnalysis =
      some (analyzeHeap data.exception data.modules r1 r2) := rfl

/-- Scrubbing the two random fields makes `analyzeHeap` independent of the
random stream. -/
theorem scrubHeapRandom_analyzeHeap (exception : ExceptionInfo)
    (modules : List ModuleInfo) (r1 r2 r1' r2' : ℚ) :
    scrubHeapRandom (analyzeHeap exception modules r1 r2) =
    scrubHeapRandom (analyzeHeap exception modules r1' r2') := by
  cases hb : (exception.code == "0xC0000374" ||
      jsIncludes (jsToLower exception.description) "heap") <;>
  simp [analyzeHeap, scrubHeapRandom, hb]

/-- C1 (amended): the full analysis is a pure function of the snapshot except
for the two `Math.random()`-derived heap fields (`allocationsCount`,
`leakedBytes`); with those scrubbed, any two runs agree field-by-field. -/
theorem c1_determinism_modulo_random (data : AnalysisData) (r1 r2 r1' r2' : ℚ) :
    scrubRandom (performCrashAnalysis data r1 r2) =
    scrubRandom (performCrashAnalysis data r1' r2') := by
  unfold scrubRandom performCrashAnalysis
  simp only [Option.map_some']
  rw [scrubHeapRandom_analyzeHeap data.exception data.modules r1 r2 r1' r2']

/-- C1 counterexample: on a heap-corruption snapshot two runs with different
random draws produce different analyses (`allocationsCount` differs). -/
theorem c1_determinism_counterexample :
    performCrashAnalysis c1Data 0 0 ≠ performCrashAnalysis c1Data (1 / 2) 0 := by
  intro heq
  have h3 : some (analyzeHeap c1Data.exception c1Data.modules 0 0) =
      some (analyzeHeap c1Data.exception c1Data.modules (1 / 2) 0) := by
    rw [← performCrashAnalysis_heapAnalysis, ← performCrashAnalysis_heapAnalysis,
      heq]
  have h4 := congrArg (fun hA => (hA.getD { corruptionDetected := false
    : HeapAnalysis }).allocationsCount) h3
  have hb : (c1Data.exception.code == "0xC0000374" ||
      jsIncludes (jsToLower c1Data.exception.description) "heap") = true := by
    decide
  simp only [Option.getD_some, analyzeHeap, hb] at h4
  norm_num at h4
